import Mathlib

/-!
# Verification of the accounts registration/login core

Shallow embedding of `src/backend/accounts/serializers.py` and
`src/backend/accounts/views.py`: a Django REST Framework registration
endpoint (`register`, backed by `UserRegistrationSerializer`) and a JWT
login endpoint (`login`).

The identity store (Django's `User` table) is modelled as a list of user
records.  The external collaborators — the password hasher inside
`User.objects.create_user`, and the token provider
`RefreshToken.for_user` — are not part of this repository; they are
modelled from the spec's description of their contracts (irreversible
hashing, opaque non-empty token strings).
-/

namespace Accounts

/-- A persisted User Record: `{username (unique), password_hash}`
(spec §3, Django `auth.User` as used by `serializers.py`). -/
structure UserRecord where
  username : String
  password_hash : String
deriving DecidableEq, Repr

/-- The identity store: the collection of persisted User Records. -/
abbrev Store := List UserRecord

/-- Modelled from the spec: the identity store's password hashing
(`User.objects.create_user` hashes the password before storage,
spec §4.1 "irreversibly hashed").  Modelled as tagging with the
algorithm marker Django uses, which suffices for the properties
stated here: the stored credential differs from the plaintext, and
hashing is deterministic. -/
def hashPassword (p : String) : String :=
  "pbkdf2_sha256$" ++ p

/-- `User.objects.filter(username=value).exists()` from
`UserRegistrationSerializer.validate_username`. -/
def usernameExists (store : Store) (u : String) : Bool :=
  store.any (fun r => r.username == u)

/-- `User.objects.create_user(username=..., password=...)` from
`UserRegistrationSerializer.create`: appends one record whose stored
credential is the hashed password. -/
def createUser (store : Store) (u p : String) : Store :=
  store ++ [⟨u, hashPassword p⟩]

/-- `django.contrib.auth.authenticate(username=..., password=...)`:
verify-credentials against the identity store, returning the matching
user or none. -/
def authenticate (store : Store) (u p : String) : Option UserRecord :=
  store.find? (fun r => r.username == u && r.password_hash == hashPassword p)

/-- Modelled from the spec: the token provider's access token
(`str(refresh.access_token)` from `rest_framework_simplejwt`), an
opaque non-empty string bound to the authenticated identity. -/
def issueAccessToken (user : UserRecord) : String :=
  "eyJ0eXAiOiJKV1QifQ.access." ++ user.username

/-- Modelled from the spec: the token provider's refresh token
(`str(refresh)`), an opaque non-empty string bound to the
authenticated identity. -/
def issueRefreshToken (user : UserRecord) : String :=
  "eyJ0eXAiOiJKV1QifQ.fresh." ++ user.username

/-- Body of an HTTP response produced by the two handlers. -/
inductive Body where
  | message : String → Body
  | fieldErrors : List (String × String) → Body
  | error : String → Body
  | tokens : String → String → Body
deriving DecidableEq, Repr

/-- An HTTP response: status code and JSON body. -/
structure HttpResponse where
  status : Nat
  body : Body
deriving DecidableEq, Repr

/-- One call made to the identity store while handling a request. -/
inductive StoreCall where
  | queryExists : String → StoreCall
  | create : String → String → StoreCall
  | verifyCredentials : String → String → StoreCall
deriving DecidableEq, Repr

/-- Whether a store call writes to the identity store. -/
def StoreCall.isWrite : StoreCall → Bool
  | .create _ _ => true
  | _ => false

/-- Input to the register endpoint: `{username, password}`. -/
structure RegisterRequest where
  username : String
  password : String
deriving DecidableEq, Repr

/-- Field-level errors for the username: `validate_username` raises
`ValidationError("Username already exists.")` when the username is
already present (`serializers.py`). -/
def usernameErrors (store : Store) (u : String) : List (String × String) :=
  if usernameExists store u then [("username", "Username already exists.")] else []

/-- Field-level errors for the password: the serializer declares
`CharField(write_only=True, min_length=8)`, so passwords shorter than
8 characters fail field validation (`serializers.py`). -/
def passwordErrors (p : String) : List (String × String) :=
  if p.length < 8 then
    [("password", "Ensure this field has at least 8 characters.")]
  else []

/-- The structured field-level error map produced by
`UserRegistrationSerializer` when `is_valid()` is false. -/
def serializerErrors (store : Store) (req : RegisterRequest) : List (String × String) :=
  usernameErrors store req.username ++ passwordErrors req.password

/-- `serializer.is_valid()`: true exactly when no field-level error is
raised. -/
def serializerIsValid (store : Store) (req : RegisterRequest) : Bool :=
  (serializerErrors store req).isEmpty

/-- The `register` view (`views.py`): runs the serializer; on success
saves the new user and responds 201, otherwise responds 400 with the
error map.  Returns the response, the resulting identity store, and
the trace of identity-store calls made. -/
def register (store : Store) (req : RegisterRequest) :
    HttpResponse × Store × List StoreCall :=
  if serializerIsValid store req then
    (⟨201, .message "User registered successfully"⟩,
     createUser store req.username req.password,
     [.queryExists req.username, .create req.username (hashPassword req.password)])
  else
    (⟨400, .fieldErrors (serializerErrors store req)⟩, store,
     [.queryExists req.username])

/-- Input to the login endpoint: `request.data.get('username')` and
`request.data.get('password')` may each be absent (`none`). -/
structure LoginRequest where
  username : Option String
  password : Option String
deriving DecidableEq, Repr

/-- Python falsiness test `if not username` on the result of
`request.data.get`: true when the field is absent or the empty
string. -/
def isBlank : Option String → Bool
  | none => true
  | some s => s.isEmpty

/-- The `login` view (`views.py`): rejects missing/empty fields with
400 before touching the identity store; otherwise authenticates and
responds 200 with a token pair or 401 with the generic error.
Returns the response, the resulting identity store, and the trace of
identity-store calls made. -/
def login (store : Store) (req : LoginRequest) :
    HttpResponse × Store × List StoreCall :=
  if isBlank req.username || isBlank req.password then
    (⟨400, .error "Username and password are required"⟩, store, [])
  else
    let u := req.username.getD ""
    let p := req.password.getD ""
    match authenticate store u p with
    | some user =>
        (⟨200, .tokens (issueAccessToken user) (issueRefreshToken user)⟩,
         store, [.verifyCredentials u p])
    | none =>
        (⟨401, .error "Invalid credentials"⟩, store, [.verifyCredentials u p])

/-- A request to either endpoint. -/
inductive Request where
  | reg : RegisterRequest → Request
  | log : LoginRequest → Request
deriving DecidableEq, Repr

/-- The identity store after one request has been handled. -/
def handle (store : Store) : Request → Store
  | .reg r => (register store r).2.1
  | .log r => (login store r).2.1

/-- The identity store after a sequence of requests has been handled
sequentially. -/
def runRequests (store : Store) (reqs : List Request) : Store :=
  reqs.foldl handle store

/-- Spec §3 invariant: no two User Records share a username. -/
def uniqueUsernames (store : Store) : Prop :=
  (store.map UserRecord.username).Nodup

/-- Strings appearing in a response body. -/
def bodyStrings : Body → List String
  | .message s => [s]
  | .fieldErrors errs => errs.foldr (fun e acc => e.1 :: e.2 :: acc) []
  | .error s => [s]
  | .tokens a r => [a, r]

/-- The fixed vocabulary of strings the register endpoint can emit:
field names and fixed framework/serializer messages. -/
def registerVocabulary : List String :=
  ["User registered successfully", "username", "Username already exists.",
   "password", "Ensure this field has at least 8 characters."]

/-! ## Helper lemmas -/

/-- The modelled hash of a password is never the plaintext password. -/
theorem hashPassword_ne (p : String) : hashPassword p ≠ p := by
  intro h
  have hl := congrArg String.length h
  rw [hashPassword, String.length_append] at hl
  have h14 : ("pbkdf2_sha256$" : String).length = 14 := rfl
  omega

/-- A string with a non-empty fixed first part is non-empty. -/
theorem append_ne_empty_of_left (s t : String) (h : 0 < s.length) : s ++ t ≠ "" := by
  intro he
  have hl := congrArg String.length he
  rw [String.length_append, String.length_empty] at hl
  omega

/-- If the username is not present, no record of the store carries it. -/
theorem usernameExists_false (store : Store) (u : String)
    (h : usernameExists store u = false) :
    ∀ r ∈ store, r.username ≠ u := by
  intro r hr
  have := List.any_eq_false.mp h r hr
  simpa using this

/-- If no record carries the username, credential verification fails. -/
theorem authenticate_none_of_absent (store : Store) (u p : String)
    (h : usernameExists store u = false) :
    authenticate store u p = none := by
  rw [authenticate, List.find?_eq_none]
  intro r hr
  have hne := usernameExists_false store u h r hr
  simp [hne]

/-- A valid registration implies the username was not already present. -/
theorem valid_implies_fresh (store : Store) (req : RegisterRequest)
    (h : serializerIsValid store req = true) :
    usernameExists store req.username = false := by
  cases hx : usernameExists store req.username
  · rfl
  · exfalso
    rw [serializerIsValid, List.isEmpty_iff] at h
    simp [serializerErrors, usernameErrors, hx] at h

/-- A non-empty string is not blank in the login handler's field test. -/
theorem isBlank_some_false (s : String) (h : s ≠ "") :
    isBlank (some s) = false := by
  show s.isEmpty = false
  cases hs : s.isEmpty
  · rfl
  · exact absurd ((String.isEmpty_iff s).mp hs) h

/-- The login handler returns the identity store unchanged. -/
theorem login_store_unchanged (store : Store) (req : LoginRequest) :
    (login store req).2.1 = store := by
  unfold login
  split
  · rfl
  · dsimp only
    cases authenticate store (req.username.getD "") (req.password.getD "") <;> rfl

/-! ## Claim C1 -/

/-- Claim C1: registering a fresh username with a password of length ≥ 8
yields HTTP 201 with the success message, and the identity store gains
exactly one new User Record for that username whose stored credential
is not the plaintext password. -/
theorem register_fresh_creates_user (store : Store) (u p : String)
    (hu : usernameExists store u = false) (hp : 8 ≤ p.length) :
    (register store ⟨u, p⟩).1 = ⟨201, .message "User registered successfully"⟩ ∧
    (register store ⟨u, p⟩).2.1 = store ++ [⟨u, hashPassword p⟩] ∧
    ((register store ⟨u, p⟩).2.1.filter (fun r => r.username == u)).length = 1 ∧
    hashPassword p ≠ p := by
  have hvalid : serializerIsValid store ⟨u, p⟩ = true := by
    simp [serializerIsValid, serializerErrors, usernameErrors, passwordErrors,
      hu, Nat.not_lt.mpr hp]
  have hfilter : store.filter (fun r => r.username == u) = [] := by
    rw [List.filter_eq_nil_iff]
    intro r hr
    simpa using usernameExists_false store u hu r hr
  refine ⟨by simp [register, hvalid], by simp [register, hvalid, createUser], ?_,
    hashPassword_ne p⟩
  simp [register, hvalid, createUser, List.filter_append, hfilter]

/-- Witness for claim C1. -/
theorem register_fresh_creates_user_witness :
    (register [] ⟨"alice", "password123"⟩).1 =
      ⟨201, .message "User registered successfully"⟩ ∧
    (register [] ⟨"alice", "password123"⟩).2.1 =
      ([] : Store) ++ [⟨"alice", hashPassword "password123"⟩] ∧
    ((register [] ⟨"alice", "password123"⟩).2.1.filter
      (fun r => r.username == "alice")).length = 1 ∧
    hashPassword "password123" ≠ "password123" :=
  register_fresh_creates_user [] "alice" "password123" (by decide) (by decide)

/-! ## Claim C2 -/

/-- Claim C2: logging in with a username and password that verify against an
existing User Record yields HTTP 200 whose body holds exactly the
`access` and `refresh` token strings, both non-empty. -/
theorem login_success_tokens (store : Store) (u p : String) (user : UserRecord)
    (hu : u ≠ "") (hp : p ≠ "")
    (hauth : authenticate store u p = some user) :
    (login store ⟨some u, some p⟩).1 =
      ⟨200, .tokens (issueAccessToken user) (issueRefreshToken user)⟩ ∧
    issueAccessToken user ≠ "" ∧ issueRefreshToken user ≠ "" := by
  refine ⟨?_, ?_, ?_⟩
  · simp [login, isBlank_some_false u hu, isBlank_some_false p hp, hauth]
  · exact append_ne_empty_of_left _ _ (by decide)
  · exact append_ne_empty_of_left _ _ (by decide)

/-- Witness for claim C2. -/
theorem login_success_tokens_witness :
    (login [⟨"alice", hashPassword "password123"⟩]
        ⟨some "alice", some "password123"⟩).1 =
      ⟨200, .tokens (issueAccessToken ⟨"alice", hashPassword "password123"⟩)
                    (issueRefreshToken ⟨"alice", hashPassword "password123"⟩)⟩ ∧
    issueAccessToken ⟨"alice", hashPassword "password123"⟩ ≠ "" ∧
    issueRefreshToken ⟨"alice", hashPassword "password123"⟩ ≠ "" :=
  login_success_tokens [⟨"alice", hashPassword "password123"⟩]
    "alice" "password123" ⟨"alice", hashPassword "password123"⟩
    (by decide) (by decide) (by decide)

/-! ## Claim C3 -/

/-- Claim C3: a login with an existing username but wrong password and a
login with a nonexistent username produce identical responses:
HTTP 401 with the generic "Invalid credentials" body in both cases. -/
theorem login_no_enumeration (store : Store) (u₁ p₁ u₂ p₂ : String)
    (hu₁ : u₁ ≠ "") (hp₁ : p₁ ≠ "") (hu₂ : u₂ ≠ "") (hp₂ : p₂ ≠ "")
    (hexists : usernameExists store u₁ = true)
    (hfail : authenticate store u₁ p₁ = none)
    (habsent : usernameExists store u₂ = false) :
    (login store ⟨some u₁, some p₁⟩).1 = ⟨401, .error "Invalid credentials"⟩ ∧
    (login store ⟨some u₂, some p₂⟩).1 = ⟨401, .error "Invalid credentials"⟩ := by
  constructor
  · simp [login, isBlank_some_false u₁ hu₁, isBlank_some_false p₁ hp₁, hfail]
  · simp [login, isBlank_some_false u₂ hu₂, isBlank_some_false p₂ hp₂,
      authenticate_none_of_absent store u₂ p₂ habsent]

/-- Witness for claim C3. -/
theorem login_no_enumeration_witness :
    (login [⟨"alice", hashPassword "password123"⟩]
        ⟨some "alice", some "wrongpass9"⟩).1 =
      ⟨401, .error "Invalid credentials"⟩ ∧
    (login [⟨"alice", hashPassword "password123"⟩]
        ⟨some "mallory", some "password123"⟩).1 =
      ⟨401, .error "Invalid credentials"⟩ :=
  login_no_enumeration [⟨"alice", hashPassword "password123"⟩]
    "alice" "wrongpass9" "mallory" "password123"
    (by decide) (by decide) (by decide) (by decide)
    (by decide) (by decide) (by decide)

/-! ## Claim C4 -/

/-- Claim C4: a registration whose password is shorter than 8 characters
fails with HTTP 400 carrying a field-level error for the password, and
the identity store is unchanged. -/
theorem register_short_password_rejected (store : Store) (req : RegisterRequest)
    (hp : req.password.length < 8) :
    (register store req).1.status = 400 ∧
    ("password", "Ensure this field has at least 8 characters.") ∈
      serializerErrors store req ∧
    (register store req).1.body = .fieldErrors (serializerErrors store req) ∧
    (register store req).2.1 = store := by
  have hmem : ("password", "Ensure this field has at least 8 characters.") ∈
      serializerErrors store req := by
    simp [serializerErrors, passwordErrors, hp]
  have hinvalid : serializerIsValid store req = false := by
    rw [serializerIsValid, List.isEmpty_eq_false]
    exact List.ne_nil_of_mem hmem
  exact ⟨by simp [register, hinvalid], hmem, by simp [register, hinvalid],
    by simp [register, hinvalid]⟩

/-- Witness for claim C4. -/
theorem register_short_password_rejected_witness :
    (register [] ⟨"bob", "short"⟩).1.status = 400 ∧
    ("password", "Ensure this field has at least 8 characters.") ∈
      serializerErrors [] ⟨"bob", "short"⟩ ∧
    (register [] ⟨"bob", "short"⟩).1.body =
      .fieldErrors (serializerErrors [] ⟨"bob", "short"⟩) ∧
    (register [] ⟨"bob", "short"⟩).2.1 = [] :=
  register_short_password_rejected [] ⟨"bob", "short"⟩ (by decide)

/-! ## Claim C5 -/

/-- Claim C5: a registration whose username already has a User Record fails
with HTTP 400 carrying the "Username already exists." field error, and
the identity store is unchanged, so no duplicate record is created. -/
theorem register_duplicate_username_rejected (store : Store) (req : RegisterRequest)
    (hu : usernameExists store req.username = true) :
    (register store req).1.status = 400 ∧
    ("username", "Username already exists.") ∈ serializerErrors store req ∧
    (register store req).1.body = .fieldErrors (serializerErrors store req) ∧
    (register store req).2.1 = store := by
  have hmem : ("username", "Username already exists.") ∈
      serializerErrors store req := by
    simp [serializerErrors, usernameErrors, hu]
  have hinvalid : serializerIsValid store req = false := by
    rw [serializerIsValid, List.isEmpty_eq_false]
    exact List.ne_nil_of_mem hmem
  exact ⟨by simp [register, hinvalid], hmem, by simp [register, hinvalid],
    by simp [register, hinvalid]⟩

/-- Witness for claim C5. -/
theorem register_duplicate_username_rejected_witness :
    (register [⟨"alice", hashPassword "password123"⟩]
        ⟨"alice", "newpassword"⟩).1.status = 400 ∧
    ("username", "Username already exists.") ∈
      serializerErrors [⟨"alice", hashPassword "password123"⟩]
        ⟨"alice", "newpassword"⟩ ∧
    (register [⟨"alice", hashPassword "password123"⟩]
        ⟨"alice", "newpassword"⟩).1.body =
      .fieldErrors (serializerErrors [⟨"alice", hashPassword "password123"⟩]
        ⟨"alice", "newpassword"⟩) ∧
    (register [⟨"alice", hashPassword "password123"⟩]
        ⟨"alice", "newpassword"⟩).2.1 =
      [⟨"alice", hashPassword "password123"⟩] :=
  register_duplicate_username_rejected [⟨"alice", hashPassword "password123"⟩]
    ⟨"alice", "newpassword"⟩ (by decide)

/-! ## Claim C6 -/

/-- Claim C6: a login whose username or password is absent or empty yields
HTTP 400 with the "Username and password are required" body, and the
trace of identity-store calls is empty: the store is never consulted. -/
theorem login_missing_fields_400 (store : Store) (req : LoginRequest)
    (h : isBlank req.username = true ∨ isBlank req.password = true) :
    (login store req).1 = ⟨400, .error "Username and password are required"⟩ ∧
    (login store req).2.2 = [] := by
  have hb : (isBlank req.username || isBlank req.password) = true := by
    rcases h with h | h <;> simp [h]
  constructor <;> simp [login, hb]

/-- Witness for claim C6. -/
theorem login_missing_fields_400_witness :
    (login [⟨"alice", hashPassword "password123"⟩] ⟨none, some "password123"⟩).1 =
      ⟨400, .error "Username and password are required"⟩ ∧
    (login [⟨"alice", hashPassword "password123"⟩] ⟨none, some "password123"⟩).2.2 =
      [] :=
  login_missing_fields_400 [⟨"alice", hashPassword "password123"⟩]
    ⟨none, some "password123"⟩ (Or.inl (by decide))

/-! ## Claim C7 -/

/-- A valid registration appends a record with a fresh username, so
uniqueness of usernames is preserved. -/
theorem register_preserves_unique (store : Store) (r : RegisterRequest)
    (h : uniqueUsernames store) : uniqueUsernames ((register store r).2.1) := by
  cases hv : serializerIsValid store r
  · simpa [register, hv] using h
  · have hu := valid_implies_fresh store r hv
    have hnotmem : r.username ∉ store.map UserRecord.username := by
      intro hmem
      rcases List.mem_map.mp hmem with ⟨rec, hrec, heq⟩
      exact usernameExists_false store r.username hu rec hrec heq
    have hgoal : uniqueUsernames (createUser store r.username r.password) := by
      rw [uniqueUsernames, createUser, List.map_append, List.nodup_append]
      exact ⟨h, by simp, by simpa [List.disjoint_singleton] using hnotmem⟩
    simpa [register, hv] using hgoal

/-- Handling any single request preserves username uniqueness. -/
theorem handle_preserves_unique (store : Store) (q : Request)
    (h : uniqueUsernames store) : uniqueUsernames (handle store q) := by
  cases q with
  | reg r => exact register_preserves_unique store r h
  | log r =>
      show uniqueUsernames ((login store r).2.1)
      rw [login_store_unchanged]
      exact h

/-- Claim C7: starting from an identity store with no duplicate usernames,
any sequence of register and login requests, handled sequentially,
leaves the store with no duplicate usernames. -/
theorem uniqueness_invariant (store : Store) (reqs : List Request)
    (h : uniqueUsernames store) : uniqueUsernames (runRequests store reqs) := by
  induction reqs generalizing store with
  | nil => exact h
  | cons q qs ih => exact ih (handle store q) (handle_preserves_unique store q h)

/-- Witness for claim C7. -/
theorem uniqueness_invariant_witness :
    uniqueUsernames (runRequests []
      [.reg ⟨"alice", "password123"⟩, .reg ⟨"alice", "password456"⟩,
       .log ⟨some "alice", some "password123"⟩, .reg ⟨"bob", "hunter2hunter2"⟩]) :=
  uniqueness_invariant [] _ (by simp [uniqueUsernames])

/-! ## Claim C8 -/

/-- Claim C8: the register handler produces exactly two outcomes: HTTP 201
with the success message when the serializer validates, and HTTP 400
with the field-level error map when it does not; no other status code
occurs. -/
theorem register_status_dichotomy (store : Store) (req : RegisterRequest) :
    (serializerIsValid store req = true ∧
      (register store req).1 = ⟨201, .message "User registered successfully"⟩) ∨
    (serializerIsValid store req = false ∧
      (register store req).1 = ⟨400, .fieldErrors (serializerErrors store req)⟩) := by
  cases hv : serializerIsValid store req
  · exact Or.inr ⟨rfl, by simp [register, hv]⟩
  · exact Or.inl ⟨rfl, by simp [register, hv]⟩

/-! ## Claim C9 -/

/-- Claim C9: the login handler never mutates the identity store: in every
branch the store is returned unchanged and no write call appears in
the trace of identity-store calls. -/
theorem login_never_mutates (store : Store) (req : LoginRequest) :
    (login store req).2.1 = store ∧
    ((login store req).2.2.all (fun c => !c.isWrite)) = true := by
  refine ⟨login_store_unchanged store req, ?_⟩
  unfold login
  split
  · rfl
  · dsimp only
    cases authenticate store (req.username.getD "") (req.password.getD "") <;> rfl

/-! ## Claim C10 -/

/-- Claim C10: the register handler's response never carries the submitted
password: two submissions differing only in the password (with equal
length-validity) get identical responses, and every string in the
response body comes from the fixed vocabulary of messages and field
names. -/
theorem register_password_confidential (store : Store) (u p₁ p₂ : String)
    (hlen : p₁.length < 8 ↔ p₂.length < 8) :
    (register store ⟨u, p₁⟩).1 = (register store ⟨u, p₂⟩).1 ∧
    ∀ s ∈ bodyStrings (register store ⟨u, p₁⟩).1.body, s ∈ registerVocabulary := by
  have hpe : passwordErrors p₁ = passwordErrors p₂ := by
    unfold passwordErrors
    by_cases hl : p₁.length < 8
    · rw [if_pos hl, if_pos (hlen.mp hl)]
    · rw [if_neg hl, if_neg (fun hc => hl (hlen.mpr hc))]
  have herr : serializerErrors store ⟨u, p₁⟩ = serializerErrors store ⟨u, p₂⟩ := by
    simp only [serializerErrors, hpe]
  have hv : serializerIsValid store ⟨u, p₁⟩ = serializerIsValid store ⟨u, p₂⟩ := by
    rw [serializerIsValid, serializerIsValid, herr]
  constructor
  · cases hvb : serializerIsValid store ⟨u, p₂⟩
    · have hv1 : serializerIsValid store ⟨u, p₁⟩ = false := hv.trans hvb
      simp [register, hv1, hvb, herr]
    · have hv1 : serializerIsValid store ⟨u, p₁⟩ = true := hv.trans hvb
      simp [register, hv1, hvb]
  · intro s hs
    cases hvb : serializerIsValid store ⟨u, p₁⟩
    · rw [register] at hs
      simp only [hvb, Bool.false_eq_true, if_false] at hs
      by_cases hue : usernameExists store u <;> by_cases hpl : p₁.length < 8 <;>
        simp [serializerErrors, usernameErrors, passwordErrors, hue, hpl,
          bodyStrings, registerVocabulary] at hs ⊢ <;> tauto
    · rw [register] at hs
      simp only [hvb, if_true] at hs
      simp [bodyStrings] at hs
      simp [hs, registerVocabulary]

/-- Witness for claim C10. -/
theorem register_password_confidential_witness :
    (register [] ⟨"alice", "password123"⟩).1 =
      (register [] ⟨"alice", "hunter2hunter2"⟩).1 ∧
    ∀ s ∈ bodyStrings (register [] ⟨"alice", "password123"⟩).1.body,
      s ∈ registerVocabulary :=
  register_password_confidential [] "alice" "password123" "hunter2hunter2"
    (by decide)

end Accounts
